import Mathlib

/-!
Shallow embedding of `src/mol-model-formats/shape/ply.ts` (the PLY shape
pipeline: grouping/coloring resolvers, mesh builder loops, incremental shape
cache) and of `src/perf-tests/tasks.ts` (the `Yielding` / `CheckYielding`
cooperative-yield strategies), together with theorems settling the frozen
claims about them.

Conventions of the embedding:
* JS numbers that carry data values are modelled as `Int`; array indices,
  row counts and group identifiers as `Nat` (the code's comment on grouping
  assumes unsigned integer ids).
* A JS out-of-range array read (which yields `undefined`) is modelled with
  `List.get?` returning `none` at the sites where the claims depend on it.
* Fallible code returns `Except PlyError`.
* The mutable closure state of `makeShapeGetter` is threaded explicitly as a
  `CacheState`; JS field assignments that happen before an exception persist,
  which the explicit threading reproduces faithfully.
* Computation steps that the claims talk about (buffer allocation, loop
  checkpoints, recomputation of grouping/coloring/mesh) are recorded in an
  event trace returned alongside the result.
-/

/-- Error taxonomy of the pipeline.  The first three correspond to the
`throw new Error(...)` sites in `ply.ts`; `cancelled` models the execution
context's cancellation observed at an `await ctx.update` checkpoint;
`invalidArrayLength` models the `RangeError` JS raises in `getGrouping` when
`arrayMax` of an empty ids array (`-Infinity`) is used as a typed-array
length; `undefinedAccess` models the TypeError of using an unset closure
field (unreachable from the public entry points). -/
inductive PlyError where
  | missingVertexElement
  | missingFaceElement
  | missingCoordinateProperties
  | cancelled
  | invalidArrayLength
  | undefinedAccess
deriving DecidableEq

/-- Events recorded while a build runs, in execution order.  `allocState`
records the `MeshBuilder.createState` call at the top of `getMesh`, which
allocates the build buffers; `checkpoint i` records an `await ctx.update`
suspension point reached at row `i`; `vertexRow i` / `faceRow i` record the
processing of one row; the remaining events record the recomputation steps
of the incremental shape cache. -/
inductive BuildEvent where
  | allocState
  | checkpoint (i : Nat)
  | vertexRow (i : Nat)
  | faceRow (i : Nat)
  | computedColoring
  | computedGrouping
  | computedMesh
  | createdShape
deriving DecidableEq

/-- Modelled from the spec (mol-util/color is not under src/): an RGB triple;
the spec's output boundary says `getColor(groupId) → RGB triple`.  The source
packs the triple into one integer; the packing is not observable by any
claim, so the triple is kept unpacked. -/
structure Color where
  r : Int
  g : Int
  b : Int
deriving DecidableEq

/-- Modelled from the spec: `Color.fromRgb` combines three channel values
into a color. -/
def Color.fromRgb (r g b : Int) : Color := ⟨r, g, b⟩

/-- Modelled from the spec: `Color.toRgb` decomposes a color into its three
channel components. -/
def Color.toRgb (c : Color) : Int × Int × Int := (c.r, c.g, c.b)

/-- Modelled from the spec (mol-data/db is not under src/): a column is
either array-backed or constant-valued (`Column.ofConst`), per spec §4.2:
"supporting both array-backed and constant-valued columns". -/
inductive Column where
  | ofArray (values : List Int)
  | const (value : Int) (rowCount : Nat)
deriving DecidableEq

/-- Reading a column at a row.  Call sites in `ply.ts` stay within the row
count of a well-formed table; a constant column returns its value at every
row. -/
def Column.value : Column → Nat → Int
  | .ofArray vs, i => vs.getD i 0
  | .const v _, _ => v

/-- Number of rows the column itself carries. -/
def Column.length : Column → Nat
  | .ofArray vs => vs.length
  | .const _ n => n

/-- JS `Uint32Array` coercion of a number. -/
def uint32 (v : Int) : Nat := (v % 4294967296).toNat

/-- `column.toArray({ array: Uint32Array })` in `getGrouping`: the column's
values coerced to unsigned 32-bit integers. -/
def Column.toUint32Array : Column → List Nat
  | .ofArray vs => vs.map uint32
  | .const v n => List.replicate n (uint32 v)

/-- The `vertex` element: a table with a fixed row count and named columns
(`PlyTable` of mol-io's ply schema; only the members `ply.ts` uses are
modelled). -/
structure PlyTable where
  rowCount : Nat
  properties : List (String × Column)
deriving DecidableEq

/-- `vertex.getProperty(name)`: the named column, or `undefined` when
absent. -/
def PlyTable.getProperty (t : PlyTable) (name : String) : Option Column :=
  (t.properties.find? (fun p => p.1 == name)).map Prod.snd

/-- One row of the `face` element: `face.value(i)` yields
`{ entries, count }` where `entries` lists vertex-row indices. -/
structure FaceRow where
  entries : List Nat
  count : Nat
deriving DecidableEq

/-- The `face` element: a list-valued column; `rowCount` is the number of
rows and `value i` is row `i`. -/
structure PlyList where
  rows : List FaceRow
deriving DecidableEq

/-- `face.rowCount`. -/
def PlyList.rowCount (l : PlyList) : Nat := l.rows.length

/-- `face.value(i)`. -/
def PlyList.value (l : PlyList) (i : Nat) : FaceRow := l.rows.getD i ⟨[], 0⟩

/-- A parsed PLY file: `getElement('vertex')` and `getElement('face')`
resolved to optional elements.  `id` models the JS object identity used by
the cache's `_plyFile !== plyFile` comparison: two calls pass the same
dataset exactly when they pass the same `id`. -/
structure PlyFile where
  id : Nat
  vertex : Option PlyTable
  face : Option PlyList
deriving DecidableEq

/-- The grouping-relevant params: `grouping` is `{ name: 'vertex', params:
{ group } }` or `{ name: 'none', params: {} }`. -/
inductive GroupingProps where
  | vertex (group : String)
  | none
deriving DecidableEq

/-- The coloring-relevant params: `coloring` is `{ name: 'vertex', params:
{ red, green, blue } }` or `{ name: 'uniform', params: { color } }`. -/
inductive ColoringProps where
  | vertex (red green blue : String)
  | uniform (color : Color)
deriving DecidableEq

/-- The props consumed by `getShape` (`PD.Values<PlyShapeParams>` restricted
to the two groups the pipeline reads; spec §6's parameter boundary).
`PD.isParamEqual` (mol-util/param-definition, not under src/) is modelled
from the spec as structural equality of the respective group, and
`deepClone` as the identity on these immutable values. -/
structure PlyShapeProps where
  grouping : GroupingProps
  coloring : ColoringProps
deriving DecidableEq

/-- The execution context consumed at checkpoints: `shouldUpdate` is the
context's time-based update predicate (modelled as a constant of the run)
and `cancelled` its cancellation flag; an `await ctx.update(...)` at a
checkpoint aborts the build when the flag is set (spec §4.7). -/
structure RuntimeContext where
  shouldUpdate : Bool
  cancelled : Bool
deriving DecidableEq

/-- `arrayMax` (mol-util/array, not under src/), modelled from the spec:
the maximum identifier of the array; JS returns `-Infinity` on an empty
array, modelled as `none`. -/
def arrayMax (l : List Nat) : Option Nat :=
  l.foldl (fun acc v => match acc with
    | Option.none => some v
    | some a => some (max a v)) Option.none

/-- The write loop of `getGrouping`: `for i: map[ids[i]] = i`, starting at
row offset `off`.  A JS typed-array write out of range is silently ignored,
matching `List.set`. -/
def fillMap (off : Nat) : List Nat → List Nat → List Nat
  | [], map => map
  | id :: rest, map => fillMap (off + 1) rest (map.set id off)

/-- The grouping result: raw per-vertex identifiers and the dense
identifier-to-row map. -/
structure Grouping where
  ids : List Nat
  map : List Nat
deriving DecidableEq

/-- The `ids` array of `getGrouping`: the selected group column's values as
unsigned 32-bit integers (`column.toArray({ array: Uint32Array })`), or —
when no grouping is selected or the named property is absent — the
sequential identifiers `0..rowCount-1` (`fillSerial(new
Uint32Array(rowCount))`, mol-util/array not under src/, modelled from the
spec as "synthesize sequential identifiers 0..N-1"). -/
def groupingIds (vertex : PlyTable) (props : PlyShapeProps) : List Nat :=
  match (match props.grouping with
    | .vertex group => vertex.getProperty group
    | .none => Option.none) with
  | some c => c.toUint32Array
  | Option.none => List.range vertex.rowCount

/-- `getGrouping(vertex, props)` from `ply.ts`: read the group identifiers,
compute the maximum, allocate a zeroed dense map of size `max+1`, and write
`map[ids[i]] = i` for each row.  On an empty ids array the maximum is
`-Infinity` and `new Uint32Array(maxId + 1)` raises a `RangeError`, modelled
as the `invalidArrayLength` error. -/
def getGrouping (vertex : PlyTable) (props : PlyShapeProps) : Except PlyError Grouping :=
  match arrayMax (groupingIds vertex props) with
  | Option.none => .error .invalidArrayLength
  | some maxId =>
    .ok { ids := groupingIds vertex props,
          map := fillMap 0 (groupingIds vertex props) (List.replicate (maxId + 1) 0) }

/-- The coloring result: three channel columns. -/
structure Coloring where
  red : Column
  green : Column
  blue : Column
deriving DecidableEq

/-- `getColoring(vertex, props)` from `ply.ts`: in vertex mode each channel
resolves to the named column, falling back (`||`) to a constant 127 column
over the row count; in uniform mode the constant color is decomposed into
three constant columns. -/
def getColoring (vertex : PlyTable) (props : PlyShapeProps) : Coloring :=
  match props.coloring with
  | .vertex red green blue =>
    { red := (vertex.getProperty red).getD (Column.const 127 vertex.rowCount)
      green := (vertex.getProperty green).getD (Column.const 127 vertex.rowCount)
      blue := (vertex.getProperty blue).getD (Column.const 127 vertex.rowCount) }
  | .uniform color =>
    { red := Column.const (Color.toRgb color).1 vertex.rowCount
      green := Column.const (Color.toRgb color).2.1 vertex.rowCount
      blue := Column.const (Color.toRgb color).2.2 vertex.rowCount }

/-- The `MeshBuildState` of `MeshBuilder.createState`: the four growable
buffers (`vertices`, `normals`, `indices`, `groups`); spec §3
"MeshBuildState".  Chunked growth is an allocation strategy with no
observable effect on the buffer contents, so buffers are plain lists. -/
structure MeshBuildState where
  vertices : List (Int × Int × Int)
  normals : List (Int × Int × Int)
  indices : List (Nat × Nat × Nat)
  groups : List Nat
deriving DecidableEq

/-- `MeshBuilder.createState(vertex.rowCount, vertex.rowCount / 4, mesh)`:
fresh empty build buffers.  The optional previous-mesh reuse hint only
recycles allocations and "does not change observable output" (spec §4.5.6),
so it is not modelled. -/
def createState : MeshBuildState := ⟨[], [], [], []⟩

/-- The body of the vertex loop for row `i`:
`ChunkedArray.add3(vertices, x.value(i), y.value(i), z.value(i))`, the
normals append when `hasNormals`, and `ChunkedArray.add(groups,
groupIds[i])`. -/
def addVertexRow (x y z : Column) (hasNormals : Bool) (nx ny nz : Column)
    (groupIds : List Nat) (i : Nat) (st : MeshBuildState) : MeshBuildState :=
  { st with
    vertices := st.vertices ++ [(x.value i, y.value i, z.value i)]
    normals := if hasNormals then st.normals ++ [(nx.value i, ny.value i, nz.value i)]
               else st.normals
    groups := st.groups ++ [groupIds.getD i 0] }

/-- The vertex loop of `getMesh`: `for (i = 0; i < vertex.rowCount; ++i)`,
with the checkpoint `if (i % 100000 === 0 && ctx.shouldUpdate) await
ctx.update(...)` observing cancellation before the row is processed.
Arguments after the columns are the current row index and the number of
remaining rows. -/
def vertexLoop (ctx : RuntimeContext) (x y z : Column) (hasNormals : Bool)
    (nx ny nz : Column) (groupIds : List Nat) :
    Nat → Nat → MeshBuildState → List BuildEvent × Except PlyError MeshBuildState
  | _, 0, st => ([], .ok st)
  | i, n + 1, st =>
    if i % 100000 == 0 && ctx.shouldUpdate then
      if ctx.cancelled then ([.checkpoint i], .error .cancelled)
      else
        let out := vertexLoop ctx x y z hasNormals nx ny nz groupIds (i + 1) n
          (addVertexRow x y z hasNormals nx ny nz groupIds i st)
        (.checkpoint i :: .vertexRow i :: out.1, out.2)
    else
      let out := vertexLoop ctx x y z hasNormals nx ny nz groupIds (i + 1) n
        (addVertexRow x y z hasNormals nx ny nz groupIds i st)
      (.vertexRow i :: out.1, out.2)

/-- The body of the face loop for one row: `const { entries, count } =
face.value(i); if (count === 3) ChunkedArray.add3(indices, entries[0],
entries[1], entries[2])`; any other arity contributes nothing. -/
def addFaceRow (row : FaceRow) (st : MeshBuildState) : MeshBuildState :=
  if row.count == 3 then
    { st with indices := st.indices ++
        [(row.entries.getD 0 0, row.entries.getD 1 0, row.entries.getD 2 0)] }
  else st

/-- The face loop of `getMesh`: `for (i = 0; i < face.rowCount; ++i)` over
`face.value(i)`, with the same checkpoint structure as the vertex loop.
Since `face.rowCount` is the length of the row list, iterating the list
with a running index is the same loop. -/
def faceLoop (ctx : RuntimeContext) :
    Nat → List FaceRow → MeshBuildState → List BuildEvent × Except PlyError MeshBuildState
  | _, [], st => ([], .ok st)
  | i, row :: rest, st =>
    if i % 100000 == 0 && ctx.shouldUpdate then
      if ctx.cancelled then ([.checkpoint i], .error .cancelled)
      else
        let out := faceLoop ctx (i + 1) rest (addFaceRow row st)
        (.checkpoint i :: .faceRow i :: out.1, out.2)
    else
      let out := faceLoop ctx (i + 1) rest (addFaceRow row st)
      (.faceRow i :: out.1, out.2)

/-- The immutable mesh produced by `MeshBuilder.getMesh` plus the
`normalsComputed` flag set by `getMesh` (spec §3 "Mesh"); vertex, normal and
index counts are the lengths of the lists. -/
structure MeshData where
  vertices : List (Int × Int × Int)
  normals : List (Int × Int × Int)
  indices : List (Nat × Nat × Nat)
  groups : List Nat
  normalsComputed : Bool
deriving DecidableEq

/-- Componentwise sum of 3-vectors. -/
def triAdd (a b : Int × Int × Int) : Int × Int × Int :=
  (a.1 + b.1, a.2.1 + b.2.1, a.2.2 + b.2.2)

/-- Componentwise difference of 3-vectors. -/
def triSub (a b : Int × Int × Int) : Int × Int × Int :=
  (a.1 - b.1, a.2.1 - b.2.1, a.2.2 - b.2.2)

/-- Cross product of 3-vectors. -/
def triCross (u v : Int × Int × Int) : Int × Int × Int :=
  (u.2.1 * v.2.2 - u.2.2 * v.2.1, u.2.2 * v.1 - u.1 * v.2.2, u.1 * v.2.1 - u.2.1 * v.1)

/-- Modelled from the spec (§4.5 step 5; mol-geo's normal computation is not
under src/): per-vertex normals by area-weighted face-normal accumulation
over incident triangles.  The cross product of two edges is already
area-weighted; the final unit normalization is a positive per-vertex
rescaling that no claim observes and that needs real arithmetic, so it is
omitted in this integer model. -/
def computeVertexNormals (vs : List (Int × Int × Int)) (tris : List (Nat × Nat × Nat)) :
    List (Int × Int × Int) :=
  tris.foldl (fun acc t =>
    let a := vs.getD t.1 (0, 0, 0)
    let b := vs.getD t.2.1 (0, 0, 0)
    let c := vs.getD t.2.2 (0, 0, 0)
    let n := triCross (triSub b a) (triSub c a)
    let acc1 := acc.set t.1 (triAdd (acc.getD t.1 (0, 0, 0)) n)
    let acc2 := acc1.set t.2.1 (triAdd (acc1.getD t.2.1 (0, 0, 0)) n)
    acc2.set t.2.2 (triAdd (acc2.getD t.2.2 (0, 0, 0)) n))
    (List.replicate vs.length (0, 0, 0))

/-- Modelled from the spec (§4.5 step 5): `Mesh.computeNormals` computes
normals only "if normals were not supplied"; when `normalsComputed` is
already set the mesh is returned unchanged. -/
def computeNormals (m : MeshData) : MeshData :=
  if m.normalsComputed then m
  else { m with normals := computeVertexNormals m.vertices m.indices }

/-- `hasNormals` of `getMesh`: the optional `nx`, `ny`, `nz` properties are
used only when all three are present. -/
def hasNormalProps (vertex : PlyTable) : Bool :=
  (vertex.getProperty "nx").isSome && (vertex.getProperty "ny").isSome &&
    (vertex.getProperty "nz").isSome

/-- The `nx` column under the `nx!` non-null assertion (only read when
`hasNormalProps` holds). -/
def nxCol (vertex : PlyTable) : Column := (vertex.getProperty "nx").getD (Column.ofArray [])

/-- The `ny` column under the `ny!` non-null assertion. -/
def nyCol (vertex : PlyTable) : Column := (vertex.getProperty "ny").getD (Column.ofArray [])

/-- The `nz` column under the `nz!` non-null assertion. -/
def nzCol (vertex : PlyTable) : Column := (vertex.getProperty "nz").getD (Column.ofArray [])

/-- `getMesh(ctx, vertex, face, groupIds, mesh?)` from `ply.ts`: allocate the
build state, check the mandatory `x`, `y`, `z` coordinate properties
(throwing `missing coordinate properties` when any is absent), run the
vertex loop and the face loop, then freeze the buffers into a mesh, record
whether normals were supplied, and run the normals finalization.  Returns
the event trace alongside the result. -/
def getMesh (ctx : RuntimeContext) (vertex : PlyTable) (face : PlyList)
    (groupIds : List Nat) : List BuildEvent × Except PlyError MeshData :=
  match vertex.getProperty "x", vertex.getProperty "y", vertex.getProperty "z" with
  | some x, some y, some z =>
    let out1 := vertexLoop ctx x y z (hasNormalProps vertex) (nxCol vertex) (nyCol vertex)
      (nzCol vertex) groupIds 0 vertex.rowCount createState
    match out1.2 with
    | .error e => (.allocState :: out1.1, .error e)
    | .ok st1 =>
      let out2 := faceLoop ctx 0 face.rows st1
      match out2.2 with
      | .error e => (.allocState :: (out1.1 ++ out2.1), .error e)
      | .ok st2 =>
        (.allocState :: (out1.1 ++ out2.1),
         .ok (computeNormals
           { vertices := st2.vertices, normals := st2.normals, indices := st2.indices,
             groups := st2.groups, normalsComputed := hasNormalProps vertex }))
  | _, _, _ => ([.allocState], .error .missingCoordinateProperties)

/-- The result of `Shape.create('ply-mesh', plyFile, mesh, ...)`: the data
the three callback closures of `createShape` capture.  The callbacks
themselves are the functions `ShapeData.getColor`, `ShapeData.getSize`,
`ShapeData.getLabel` below, applied to this record. -/
structure ShapeData where
  name : String
  sourceId : Nat
  geometry : MeshData
  coloring : Coloring
  grouping : Grouping
deriving DecidableEq

/-- `createShape(plyFile, mesh, coloring, grouping)` from `ply.ts`. -/
def createShape (plyFile : PlyFile) (mesh : MeshData) (coloring : Coloring)
    (grouping : Grouping) : ShapeData :=
  { name := "ply-mesh", sourceId := plyFile.id, geometry := mesh,
    coloring := coloring, grouping := grouping }

/-- The color callback: `const idx = map[groupId]; return
Color.fromRgb(red.value(idx), green.value(idx), blue.value(idx))`.  The
typed-array read `map[groupId]` yields `undefined` out of range, modelled as
`none`. -/
def ShapeData.getColor (s : ShapeData) (groupId : Nat) : Option Color :=
  s.grouping.map[groupId]?.map fun idx =>
    Color.fromRgb (s.coloring.red.value idx) (s.coloring.green.value idx)
      (s.coloring.blue.value idx)

/-- The size callback: `() => 1`. -/
def ShapeData.getSize (_ : ShapeData) (_ : Nat) : Nat := 1

/-- The label callback: `(groupId) => ids[groupId].toString()`.  The read
`ids[groupId]` yields `undefined` when `groupId` is at or beyond the length
of `ids` (calling `.toString()` on it then throws), modelled as `none`. -/
def ShapeData.getLabel (s : ShapeData) (groupId : Nat) : Option String :=
  s.grouping.ids[groupId]?.map toString

/-- The mutable closure state of `makeShapeGetter`: `_plyFile` (only its
identity is compared, so the `id` is stored), `_props`, `_shape`, `_mesh`,
`_coloring`, `_grouping`.  All start out unset. -/
structure CacheState where
  plyFile : Option Nat
  props : Option PlyShapeProps
  shape : Option ShapeData
  mesh : Option MeshData
  coloring : Option Coloring
  grouping : Option Grouping
deriving DecidableEq

/-- The state right after `makeShapeGetter()` returns: every closure field
undefined. -/
def CacheState.init : CacheState :=
  ⟨Option.none, Option.none, Option.none, Option.none, Option.none, Option.none⟩

/-- The `newMesh` flag of `getShape`: set when there is no cached file or the
identity differs, or when there are no cached props or the grouping params
differ (`PD.isParamEqual` on the grouping group, modelled as structural
equality). -/
def newMeshFlag (st : CacheState) (plyFile : PlyFile) (props : PlyShapeProps) : Bool :=
  match st.plyFile, st.props with
  | some pid, some p => decide (pid ≠ plyFile.id) || decide (p.grouping ≠ props.grouping)
  | _, _ => true

/-- The `newColor` flag of `getShape`: set when there are no cached props or
the coloring params differ. -/
def newColorFlag (st : CacheState) (props : PlyShapeProps) : Bool :=
  match st.props with
  | some p => decide (p.coloring ≠ props.coloring)
  | Option.none => true

/-- The `getShape` closure returned by `makeShapeGetter`, with the closure
state threaded explicitly: returns the post-call state, the trace of
recomputation events, and the result (the value of `_shape` on success;
`Option` mirrors that the field starts out unset).  Field assignments that
precede a thrown error persist in the returned state, exactly as the JS
closure's assignments do; `_plyFile` and `_props = deepClone(props)` are
assigned only when no error was thrown before them. -/
def getShape (ctx : RuntimeContext) (plyFile : PlyFile) (props : PlyShapeProps)
    (st : CacheState) :
    CacheState × List BuildEvent × Except PlyError (Option ShapeData) :=
  match plyFile.vertex with
  | Option.none => (st, [], .error .missingVertexElement)
  | some vertex =>
    match plyFile.face with
    | Option.none => (st, [], .error .missingFaceElement)
    | some face =>
      if newMeshFlag st plyFile props then
        let coloring := getColoring vertex props
        let stc := { st with coloring := some coloring }
        match getGrouping vertex props with
        | .error e => (stc, [.computedColoring], .error e)
        | .ok grouping =>
          let stg := { stc with grouping := some grouping }
          let out := getMesh ctx vertex face grouping.ids
          match out.2 with
          | .error e => (stg, .computedColoring :: .computedGrouping :: out.1, .error e)
          | .ok mesh =>
            let stf := { stg with
              mesh := some mesh,
              shape := some (createShape plyFile mesh coloring grouping),
              plyFile := some plyFile.id,
              props := some props }
            (stf, .computedColoring :: .computedGrouping :: (out.1 ++ [.computedMesh, .createdShape]),
             .ok stf.shape)
      else if newColorFlag st props then
        let coloring := getColoring vertex props
        let stc := { st with coloring := some coloring }
        match st.mesh, st.grouping with
        | some mesh, some grouping =>
          let stf := { stc with
            shape := some (createShape plyFile mesh coloring grouping),
            plyFile := some plyFile.id,
            props := some props }
          (stf, [.computedColoring, .createdShape], .ok stf.shape)
        | _, _ => (stc, [.computedColoring], .error .undefinedAccess)
      else
        let stf := { st with plyFile := some plyFile.id, props := some props }
        (stf, [], .ok stf.shape)

/-- Whether a `getShape` outcome is a successfully returned shape. -/
def succeeded (r : Except PlyError (Option ShapeData)) : Bool :=
  match r with
  | .ok (some _) => true
  | _ => false

/-- The set of triangles the face loop materializes: exactly the rows whose
index count equals 3, in row order, each contributing its first three
entries. -/
def trianglesOf (rows : List FaceRow) : List (Nat × Nat × Nat) :=
  (rows.filter (fun r => r.count == 3)).map
    (fun r => (r.entries.getD 0 0, r.entries.getD 1 0, r.entries.getD 2 0))

/-- One checkpoint of `Tasks.Yielding.yield` from `tasks.ts` at clock reading
`t` with state `last = lastUpdated`: `if (t - lastUpdated < 250) return;`
(no suspension, state kept) else `lastUpdated = t` and a suspension is
performed.  Returns the new state and whether it suspended. -/
def yieldingStep (last t : Int) : Int × Bool :=
  if t - last < 250 then (last, false) else (t, true)

/-- `Tasks.CheckYielding.needsYield` from `tasks.ts`: `now() - lastUpdated >
250` at clock reading `t`. -/
def needsYield (last t : Int) : Bool := decide (t - last > 250)

/-- One checkpoint of the check-then-yield strategy: the caller tests
`needsYield` first and invokes `CheckYielding.yield` (which sets
`lastUpdated` and suspends) only when it is true.  The clock reading
`yield` stores is the same checkpoint's reading. -/
def checkYieldingStep (last t : Int) : Int × Bool :=
  if needsYield last t then (t, true) else (last, false)

/-- The suspension decisions of the `Yielding` strategy over a sequence of
checkpoint clock readings. -/
def yieldingRun (last : Int) : List Int → List Bool
  | [] => []
  | t :: ts => (yieldingStep last t).2 :: yieldingRun (yieldingStep last t).1 ts

/-- The suspension decisions of the check-then-yield strategy over a
sequence of checkpoint clock readings. -/
def checkYieldingRun (last : Int) : List Int → List Bool
  | [] => []
  | t :: ts => (checkYieldingStep last t).2 :: checkYieldingRun (checkYieldingStep last t).1 ts

/-- Whether no checkpoint of the run observes an elapsed time of exactly
250 since the strategy's last reset (state threaded along the `Yielding`
strategy, whose states coincide with the check-then-yield strategy's under
this condition). -/
def noExactBudget (last : Int) : List Int → Bool
  | [] => true
  | t :: ts => decide (t - last ≠ 250) && noExactBudget (yieldingStep last t).1 ts

/-- A context that never requests an update: checkpoints are never
reached. -/
def ctx0 : RuntimeContext := ⟨false, false⟩

/-- A context whose cancellation flag is set and that requests updates: the
first checkpoint observes the cancellation. -/
def ctxCancel : RuntimeContext := ⟨true, true⟩

/-- A well-formed 3-row vertex table with coordinates and normals. -/
def vt1 : PlyTable :=
  { rowCount := 3,
    properties :=
      [("x", Column.ofArray [0, 1, 2]), ("y", Column.ofArray [3, 4, 5]),
       ("z", Column.ofArray [6, 7, 8]), ("nx", Column.ofArray [1, 0, 0]),
       ("ny", Column.ofArray [0, 1, 0]), ("nz", Column.ofArray [0, 0, 1])] }

/-- A face table with one triangle row and one quadrilateral row. -/
def faceTriQuad : PlyList := ⟨[⟨[0, 1, 2], 3⟩, ⟨[0, 1, 2, 0], 4⟩]⟩

/-- A complete valid dataset. -/
def file1 : PlyFile := ⟨1, some vt1, some faceTriQuad⟩

/-- Params: no grouping, uniform coloring. -/
def propsA : PlyShapeProps := ⟨GroupingProps.none, ColoringProps.uniform ⟨100, 150, 200⟩⟩

/-- Params equal to `propsA` except for the coloring group. -/
def propsB : PlyShapeProps := ⟨GroupingProps.none, ColoringProps.uniform ⟨1, 2, 3⟩⟩

/-- A 1-row vertex table missing the mandatory `x` property. -/
def vtMissingX : PlyTable :=
  { rowCount := 1, properties := [("y", Column.ofArray [0]), ("z", Column.ofArray [0])] }

/-- A dataset whose vertex table is missing `x`. -/
def fileMissingX : PlyFile := ⟨2, some vtMissingX, some ⟨[]⟩⟩

/-- A 1-row vertex table whose `atomid` group identifier (5) exceeds the
vertex row count. -/
def vt2 : PlyTable :=
  { rowCount := 1,
    properties :=
      [("x", Column.ofArray [0]), ("y", Column.ofArray [0]), ("z", Column.ofArray [0]),
       ("atomid", Column.ofArray [5])] }

/-- The dataset built from `vt2` with a single (degenerate) triangle. -/
def file2 : PlyFile := ⟨3, some vt2, some ⟨[⟨[0, 0, 0], 3⟩]⟩⟩

/-- Params grouping by `atomid`, per-vertex coloring with absent channel
properties. -/
def props2 : PlyShapeProps := ⟨GroupingProps.vertex "atomid", ColoringProps.vertex "red" "green" "blue"⟩

/-- The grouping computed for `vt2` / `props2`: ids `[5]`, dense map of
length 6 mapping identifier 5 to row 0. -/
def grp2 : Grouping := (getGrouping vt2 props2).toOption.getD ⟨[], []⟩

/-- The mesh built for `vt2`. -/
def mesh2 : MeshData :=
  ((getMesh ctx0 vt2 (⟨[⟨[0, 0, 0], 3⟩]⟩ : PlyList) grp2.ids).2).toOption.getD
    ⟨[], [], [], [], false⟩

/-- The shape built for `vt2`. -/
def shape2 : ShapeData := createShape file2 mesh2 (getColoring vt2 props2) grp2

/-- A 3-row vertex table whose `gid` identifiers repeat (last-write-wins
case for the grouping map). -/
def vtRep : PlyTable :=
  { rowCount := 3,
    properties :=
      [("x", Column.ofArray [0, 0, 0]), ("y", Column.ofArray [0, 0, 0]),
       ("z", Column.ofArray [0, 0, 0]), ("gid", Column.ofArray [7, 7, 2])] }

/-- Params grouping by the repeating `gid` property. -/
def propsRep : PlyShapeProps := ⟨GroupingProps.vertex "gid", ColoringProps.uniform ⟨0, 0, 0⟩⟩

/-- The grouping the full-rebuild path computes for `vt1` / `propsA`. -/
def grpA : Grouping := (getGrouping vt1 propsA).toOption.getD ⟨[], []⟩

/-- The mesh the full-rebuild path computes for `file1` / `propsA`. -/
def meshA : MeshData :=
  ((getMesh ctx0 vt1 faceTriQuad grpA.ids).2).toOption.getD ⟨[], [], [], [], false⟩

/-- The shape the full-rebuild path computes for `file1` / `propsA`. -/
def sA : ShapeData := createShape file1 meshA (getColoring vt1 propsA) grpA

/-- The cache state after a first successful `getShape` on `file1` /
`propsA`. -/
def stA : CacheState := (getShape ctx0 file1 propsA CacheState.init).1

/-- When a checkpoint does not observe an elapsed time of exactly the
250 ms budget, the maybe-awaitable strategy and the check-then-yield
strategy make the same suspension decision and reach the same state. -/
theorem yieldingStep_eq_checkYieldingStep (last t : Int) (h : t - last ≠ 250) :
    yieldingStep last t = checkYieldingStep last t := by
  unfold yieldingStep checkYieldingStep needsYield
  by_cases hlt : t - last < 250
  · rw [if_pos hlt, if_neg]
    simp only [decide_eq_true_eq]
    omega
  · rw [if_neg hlt, if_pos]
    simp only [decide_eq_true_eq]
    omega

/-- C9 (corrected): over any sequence of checkpoint clock readings in which
no checkpoint observes an elapsed time of exactly 250 since the strategy's
last reset, the maybe-awaitable strategy (`Yielding.yield`) and the
check-then-yield strategy (`CheckYielding.needsYield` then
`CheckYielding.yield`) suspend at exactly the same checkpoints.  At an
elapsed time of exactly 250 they differ: `Yielding` suspends at elapsed
`≥ 250`, the check-then-yield strategy only at elapsed `> 250`. -/
theorem C9_yield_equivalence (ts : List Int) (last : Int)
    (h : noExactBudget last ts = true) :
    yieldingRun last ts = checkYieldingRun last ts := by
  induction ts generalizing last with
  | nil => rfl
  | cons t ts ih =>
    simp only [noExactBudget, Bool.and_eq_true, decide_eq_true_eq] at h
    obtain ⟨h1, h2⟩ := h
    have hstep := yieldingStep_eq_checkYieldingStep last t h1
    simp only [yieldingRun, checkYieldingRun, ← hstep]
    exact congrArg _ (ih _ h2)

/-- C9 witness: a concrete run with no exactly-250 checkpoint, on which the
two strategies agree. -/
theorem C9_yield_equivalence_witness :
    noExactBudget 0 [100, 600, 601] = true ∧
      yieldingRun 0 [100, 600, 601] = checkYieldingRun 0 [100, 600, 601] :=
  ⟨by decide, C9_yield_equivalence [100, 600, 601] 0 (by decide)⟩

/-- C9 counterexample: at a checkpoint whose clock reading is exactly 250
past the last reset, `Yielding.yield` suspends but the check-then-yield
strategy does not, so the two strategies do not suspend at the same
checkpoints as the claim states. -/
theorem C9_yield_equivalence_cex :
    yieldingRun 0 [250] = [true] ∧ checkYieldingRun 0 [250] = [false] := by
  decide

/-- The `computeNormals` finalization does not touch the vertex buffer. -/
theorem computeNormals_vertices (m : MeshData) : (computeNormals m).vertices = m.vertices := by
  unfold computeNormals
  split <;> rfl

/-- The `computeNormals` finalization does not touch the group-id buffer. -/
theorem computeNormals_groups (m : MeshData) : (computeNormals m).groups = m.groups := by
  unfold computeNormals
  split <;> rfl

/-- The `computeNormals` finalization does not touch the index buffer. -/
theorem computeNormals_indices (m : MeshData) : (computeNormals m).indices = m.indices := by
  unfold computeNormals
  split <;> rfl

/-- When the mesh records that normals were supplied, the finalization
returns it unchanged. -/
theorem computeNormals_of_supplied (m : MeshData) (h : m.normalsComputed = true) :
    computeNormals m = m := by
  unfold computeNormals
  rw [if_pos h]

/-- Under a context that does not abort (no update requests, or no
cancellation), the vertex loop succeeds and appends exactly one position,
optional normal and group id per row, in row order. -/
theorem vertexLoop_ok (ctx : RuntimeContext) (x y z : Column) (hasN : Bool)
    (nx ny nz : Column) (gids : List Nat)
    (hc : ctx.shouldUpdate = false ∨ ctx.cancelled = false) :
    ∀ (n i : Nat) (st : MeshBuildState),
      (vertexLoop ctx x y z hasN nx ny nz gids i n st).2 = Except.ok
        { vertices := st.vertices ++
            (List.range' i n).map (fun j => (x.value j, y.value j, z.value j)),
          normals := st.normals ++
            (if hasN then (List.range' i n).map (fun j => (nx.value j, ny.value j, nz.value j))
             else []),
          indices := st.indices,
          groups := st.groups ++ (List.range' i n).map (fun j => gids.getD j 0) } := by
  intro n
  induction n with
  | zero =>
    intro i st
    cases hasN <;> simp [vertexLoop, List.range']
  | succ n ih =>
    intro i st
    have hstep : (vertexLoop ctx x y z hasN nx ny nz gids i (n + 1) st).2 =
        (vertexLoop ctx x y z hasN nx ny nz gids (i + 1) n
          (addVertexRow x y z hasN nx ny nz gids i st)).2 := by
      rcases hc with hc | hc
      · simp [vertexLoop, hc]
      · by_cases hcp : ((i % 100000 == 0) && ctx.shouldUpdate) = true
        · simp [vertexLoop, hcp, hc]
        · simp [vertexLoop, hcp]
    rw [hstep, ih]
    cases hasN <;>
      simp [addVertexRow, List.range'_succ, List.append_assoc]

/-- Under a context that does not abort, the face loop succeeds and appends
exactly the triangles of the triangular rows, in row order. -/
theorem faceLoop_ok (ctx : RuntimeContext)
    (hc : ctx.shouldUpdate = false ∨ ctx.cancelled = false) :
    ∀ (rows : List FaceRow) (i : Nat) (st : MeshBuildState),
      (faceLoop ctx i rows st).2 =
        Except.ok { st with indices := st.indices ++ trianglesOf rows } := by
  intro rows
  induction rows with
  | nil =>
    intro i st
    simp [faceLoop, trianglesOf]
  | cons row rest ih =>
    intro i st
    have hstep : (faceLoop ctx i (row :: rest) st).2 =
        (faceLoop ctx (i + 1) rest (addFaceRow row st)).2 := by
      rcases hc with hc | hc
      · simp [faceLoop, hc]
      · by_cases hcp : ((i % 100000 == 0) && ctx.shouldUpdate) = true
        · simp [faceLoop, hcp, hc]
        · simp [faceLoop, hcp]
    rw [hstep, ih]
    by_cases h3 : (row.count == 3) = true
    · simp [addFaceRow, trianglesOf, h3, List.filter_cons, List.append_assoc]
    · simp [addFaceRow, trianglesOf, h3, List.filter_cons]

/-- Full characterization of a successful `getMesh` run: positions, normals
(as supplied, before finalization), triangles and group ids, each in row
order. -/
theorem getMesh_ok (ctx : RuntimeContext) (vertex : PlyTable) (face : PlyList)
    (gids : List Nat) (cx cy cz : Column)
    (hx : vertex.getProperty "x" = some cx) (hy : vertex.getProperty "y" = some cy)
    (hz : vertex.getProperty "z" = some cz)
    (hc : ctx.shouldUpdate = false ∨ ctx.cancelled = false) :
    (getMesh ctx vertex face gids).2 = Except.ok (computeNormals
      { vertices := (List.range vertex.rowCount).map
          (fun j => (cx.value j, cy.value j, cz.value j)),
        normals := if hasNormalProps vertex then
            (List.range vertex.rowCount).map
              (fun j => ((nxCol vertex).value j, (nyCol vertex).value j, (nzCol vertex).value j))
          else [],
        indices := trianglesOf face.rows,
        groups := (List.range vertex.rowCount).map (fun j => gids.getD j 0),
        normalsComputed := hasNormalProps vertex }) := by
  have hv := vertexLoop_ok ctx cx cy cz (hasNormalProps vertex) (nxCol vertex) (nyCol vertex)
    (nzCol vertex) gids hc vertex.rowCount 0 createState
  unfold getMesh
  rw [hx, hy, hz]
  simp only [hv, faceLoop_ok ctx hc]
  simp [createState, List.range_eq_range']

/-- C6 (corrected): when any of the mandatory `x`, `y`, `z` coordinate
properties is absent from the vertex table, `getMesh` fails synchronously
with the missing-property error — the trace shows no checkpoint and no row
processed — but only after the build state's buffers have been allocated
(`MeshBuilder.createState` runs before the property check), so the trace is
exactly the allocation followed by the error. -/
theorem C6_missing_coordinate_error (ctx : RuntimeContext) (vertex : PlyTable)
    (face : PlyList) (gids : List Nat)
    (h : vertex.getProperty "x" = Option.none ∨ vertex.getProperty "y" = Option.none ∨
      vertex.getProperty "z" = Option.none) :
    getMesh ctx vertex face gids =
      ([BuildEvent.allocState], Except.error PlyError.missingCoordinateProperties) := by
  unfold getMesh
  cases hx : vertex.getProperty "x" <;>
    cases hy : vertex.getProperty "y" <;>
      cases hz : vertex.getProperty "z" <;>
        first
          | rfl
          | simp_all

/-- C6 witness: the amended theorem evaluated on a concrete vertex table
missing `x`. -/
theorem C6_missing_coordinate_error_witness :
    vtMissingX.getProperty "x" = Option.none ∧
      getMesh ctx0 vtMissingX ⟨[]⟩ [] =
        ([BuildEvent.allocState], Except.error PlyError.missingCoordinateProperties) :=
  ⟨rfl, C6_missing_coordinate_error ctx0 vtMissingX ⟨[]⟩ [] (Or.inl rfl)⟩

/-- C6 counterexample: the claim says the missing-property error is raised
before any build buffer is allocated, but on a table missing `x` the trace
preceding the error already contains the build-state allocation. -/
theorem C6_missing_coordinate_error_cex :
    (getMesh ctx0 vtMissingX ⟨[]⟩ []).2 = Except.error PlyError.missingCoordinateProperties ∧
      BuildEvent.allocState ∈ (getMesh ctx0 vtMissingX ⟨[]⟩ []).1 :=
  ⟨rfl, by decide⟩

/-- C7 (confirmed): under a valid vertex table and a non-aborting context
the face loop never errors, and the index buffer of the produced mesh is
exactly the triangles of the rows whose index count equals 3, in row order,
each contributing its three vertex indices; rows of any other arity
contribute nothing. -/
theorem C7_triangle_faces (ctx : RuntimeContext) (vertex : PlyTable) (face : PlyList)
    (gids : List Nat) (cx cy cz : Column)
    (hx : vertex.getProperty "x" = some cx) (hy : vertex.getProperty "y" = some cy)
    (hz : vertex.getProperty "z" = some cz)
    (hc : ctx.shouldUpdate = false ∨ ctx.cancelled = false) :
    ((getMesh ctx vertex face gids).2).toOption.map MeshData.indices =
      some (trianglesOf face.rows) := by
  rw [getMesh_ok ctx vertex face gids cx cy cz hx hy hz hc]
  simp [Except.toOption, computeNormals_indices]

/-- C7 witness: a face table with one triangle row and one quadrilateral row
yields an index buffer with exactly that one triangle. -/
theorem C7_triangle_faces_witness :
    vt1.getProperty "x" = some (Column.ofArray [0, 1, 2]) ∧
      ((getMesh ctx0 vt1 faceTriQuad [0, 1, 2]).2).toOption.map MeshData.indices =
        some (trianglesOf faceTriQuad.rows) ∧
      trianglesOf faceTriQuad.rows = [(0, 1, 2)] :=
  ⟨rfl,
    C7_triangle_faces ctx0 vt1 faceTriQuad [0, 1, 2] (Column.ofArray [0, 1, 2])
      (Column.ofArray [3, 4, 5]) (Column.ofArray [6, 7, 8]) rfl rfl rfl (Or.inl rfl),
    rfl⟩

/-- C10 (confirmed): the vertex loop preserves input order — for a mesh
produced by a successful `getMesh`, vertex `i` holds position
`(x(i), y(i), z(i))`, its group-id entry is `groupIds[i]`, and when `nx`,
`ny`, `nz` are all present its normal is `(nx(i), ny(i), nz(i))`; the output
vertex index equals the input row index. -/
theorem C10_vertex_loop_order (ctx : RuntimeContext) (vertex : PlyTable) (face : PlyList)
    (gids : List Nat) (m : MeshData) (cx cy cz : Column)
    (hx : vertex.getProperty "x" = some cx) (hy : vertex.getProperty "y" = some cy)
    (hz : vertex.getProperty "z" = some cz)
    (hc : ctx.shouldUpdate = false ∨ ctx.cancelled = false)
    (hm : (getMesh ctx vertex face gids).2 = Except.ok m) :
    m.vertices = (List.range vertex.rowCount).map
        (fun i => (cx.value i, cy.value i, cz.value i)) ∧
    m.groups = (List.range vertex.rowCount).map (fun i => gids.getD i 0) ∧
    (∀ cnx cny cnz, vertex.getProperty "nx" = some cnx →
      vertex.getProperty "ny" = some cny → vertex.getProperty "nz" = some cnz →
      m.normals = (List.range vertex.rowCount).map
        (fun i => (cnx.value i, cny.value i, cnz.value i))) := by
  rw [getMesh_ok ctx vertex face gids cx cy cz hx hy hz hc] at hm
  injection hm with hm
  refine ⟨?_, ?_, ?_⟩
  · rw [← hm, computeNormals_vertices]
  · rw [← hm, computeNormals_groups]
  · intro cnx cny cnz hnx hny hnz
    have hasN : hasNormalProps vertex = true := by
      simp [hasNormalProps, hnx, hny, hnz]
    have h1 : nxCol vertex = cnx := by simp [nxCol, hnx]
    have h2 : nyCol vertex = cny := by simp [nyCol, hny]
    have h3 : nzCol vertex = cnz := by simp [nzCol, hnz]
    rw [← hm, computeNormals_of_supplied _ (by simpa using hasN)]
    simp [hasN, h1, h2, h3]

/-- C10 witness: the theorem evaluated on a concrete 3-row table with
coordinates and normals. -/
theorem C10_vertex_loop_order_witness :
    vt1.getProperty "x" = some (Column.ofArray [0, 1, 2]) ∧
      meshA.vertices = (List.range vt1.rowCount).map
        (fun i => ((Column.ofArray [0, 1, 2]).value i, (Column.ofArray [3, 4, 5]).value i,
          (Column.ofArray [6, 7, 8]).value i)) ∧
      meshA.groups = (List.range vt1.rowCount).map (fun i => List.getD [0, 1, 2] i 0) ∧
      (∀ cnx cny cnz, vt1.getProperty "nx" = some cnx →
        vt1.getProperty "ny" = some cny → vt1.getProperty "nz" = some cnz →
        meshA.normals = (List.range vt1.rowCount).map
          (fun i => (cnx.value i, cny.value i, cnz.value i))) :=
  ⟨rfl,
    C10_vertex_loop_order ctx0 vt1 faceTriQuad [0, 1, 2] meshA (Column.ofArray [0, 1, 2])
      (Column.ofArray [3, 4, 5]) (Column.ofArray [6, 7, 8]) rfl rfl rfl (Or.inl rfl) rfl⟩

/-- The map-write loop preserves the map's length (a typed array never
grows). -/
theorem fillMap_length : ∀ (ids : List Nat) (off : Nat) (map : List Nat),
    (fillMap off ids map).length = map.length := by
  intro ids
  induction ids with
  | nil => intro off map; rfl
  | cons id rest ih =>
    intro off map
    simp [fillMap, ih]

/-- A map position whose identifier never occurs in the ids is untouched by
the write loop. -/
theorem fillMap_getElem_of_not_mem (k : Nat) :
    ∀ (ids : List Nat) (off : Nat) (map : List Nat), k ∉ ids →
      (fillMap off ids map)[k]? = map[k]? := by
  intro ids
  induction ids with
  | nil => intro off map _; rfl
  | cons id rest ih =>
    intro off map hk
    simp only [List.mem_cons, not_or] at hk
    show (fillMap (off + 1) rest (map.set id off))[k]? = map[k]?
    rw [ih (off + 1) (map.set id off) hk.2]
    exact List.getElem?_set_ne (fun h => hk.1 h.symm)

/-- Last-write-wins characterization of the map-write loop: when row `i` is
the last row carrying its identifier, the finished map sends that identifier
to `off + i`. -/
theorem fillMap_last_write : ∀ (ids : List Nat) (off : Nat) (map : List Nat) (i : Nat),
    i < ids.length →
    (∀ j, i < j → j < ids.length → ids.getD j 0 ≠ ids.getD i 0) →
    ids.getD i 0 < map.length →
    (fillMap off ids map)[ids.getD i 0]? = some (off + i) := by
  intro ids
  induction ids with
  | nil =>
    intro off map i hi
    exact absurd hi (by simp)
  | cons id rest ih =>
    intro off map i hi huniq hbound
    cases i with
    | zero =>
      have hnm : id ∉ rest := by
        intro hmem
        obtain ⟨n, hn, heq⟩ := List.getElem_of_mem hmem
        refine huniq (n + 1) (Nat.succ_pos n) (by simpa using hn) ?_
        simp only [List.getD_cons_succ, List.getD_cons_zero]
        rw [List.getD_eq_getElem?_getD, List.getElem?_eq_getElem hn]
        simpa using heq
      simp only [List.getD_cons_zero] at hbound ⊢
      show (fillMap (off + 1) rest (map.set id off))[id]? = some (off + 0)
      rw [fillMap_getElem_of_not_mem id rest (off + 1) (map.set id off) hnm,
        List.getElem?_set_self hbound]
      rfl
    | succ i =>
      simp only [List.getD_cons_succ] at hbound ⊢
      have huniq' : ∀ j, i < j → j < rest.length → rest.getD j 0 ≠ rest.getD i 0 := by
        intro j hj hjl
        have := huniq (j + 1) (by omega) (by simpa using hjl)
        simpa using this
      have hres := ih (off + 1) (map.set id off) i (by simpa using hi) huniq'
        (by simpa using hbound)
      show (fillMap (off + 1) rest (map.set id off))[rest.getD i 0]? = some (off + (i + 1))
      rw [hres]
      congr 1
      omega

/-- Folding the maximum from a `some` seed is the plain maximum fold. -/
theorem foldl_max_some (l : List Nat) : ∀ a : Nat,
    l.foldl (fun acc v => match acc with
      | Option.none => some v
      | some b => some (max b v)) (some a) = some (l.foldl max a) := by
  induction l with
  | nil => intro a; rfl
  | cons v l ih =>
    intro a
    simp only [List.foldl_cons]
    exact ih (max a v)

/-- `arrayMax` on a nonempty array is the maximum fold of its tail seeded
with its head. -/
theorem arrayMax_cons (x : Nat) (l : List Nat) : arrayMax (x :: l) = some (l.foldl max x) := by
  unfold arrayMax
  simp only [List.foldl_cons]
  exact foldl_max_some l x

/-- The seed and every element are bounded by the maximum fold. -/
theorem le_foldl_max (l : List Nat) : ∀ a : Nat,
    a ≤ l.foldl max a ∧ ∀ x ∈ l, x ≤ l.foldl max a := by
  induction l with
  | nil =>
    intro a
    exact ⟨Nat.le_refl a, by simp⟩
  | cons v l ih =>
    intro a
    simp only [List.foldl_cons]
    refine ⟨Nat.le_trans (Nat.le_max_left a v) (ih (max a v)).1, ?_⟩
    intro x hx
    rcases List.mem_cons.mp hx with h | h
    · subst h
      exact Nat.le_trans (Nat.le_max_right a x) (ih (max a x)).1
    · exact (ih (max a v)).2 x h

/-- Every member of a list is bounded by its `arrayMax`. -/
theorem arrayMax_le (l : List Nat) (x : Nat) (hx : x ∈ l) :
    ∃ mx, arrayMax l = some mx ∧ x ≤ mx := by
  cases l with
  | nil => simp at hx
  | cons v l =>
    refine ⟨l.foldl max v, arrayMax_cons v l, ?_⟩
    rcases List.mem_cons.mp hx with h | h
    · subst h
      exact (le_foldl_max l x).1
    · exact (le_foldl_max l v).2 x h

/-- C5 (confirmed): a successful `getGrouping` returns a map whose length is
the maximum identifier plus one; for every row `i` that is the last row
carrying its identifier, `map[ids[i]] = i` (last-write-wins); and when no
grouping is selected the ids are the sequential identifiers
`0..rowCount-1`. -/
theorem C5_grouping_map (vertex : PlyTable) (props : PlyShapeProps) (g : Grouping)
    (hg : getGrouping vertex props = Except.ok g) :
    g.map.length = (arrayMax g.ids).getD 0 + 1 ∧
    (∀ i, i < g.ids.length →
      (∀ j, i < j → j < g.ids.length → g.ids.getD j 0 ≠ g.ids.getD i 0) →
      g.map[g.ids.getD i 0]? = some i) ∧
    (props.grouping = GroupingProps.none → g.ids = List.range vertex.rowCount) := by
  unfold getGrouping at hg
  cases hmax : arrayMax (groupingIds vertex props) with
  | none =>
    rw [hmax] at hg
    exact absurd hg (by simp)
  | some maxId =>
    rw [hmax] at hg
    injection hg with hg
    subst hg
    refine ⟨?_, ?_, ?_⟩
    · rw [fillMap_length, List.length_replicate, hmax]
      rfl
    · intro i hi huniq
      have hmem : (groupingIds vertex props).getD i 0 ∈ groupingIds vertex props := by
        rw [List.getD_eq_getElem?_getD, List.getElem?_eq_getElem hi]
        exact List.getElem_mem hi
      obtain ⟨mx, hmx, hle⟩ := arrayMax_le (groupingIds vertex props) _ hmem
      rw [hmax] at hmx
      injection hmx with hmx
      subst hmx
      have := fillMap_last_write (groupingIds vertex props) 0
        (List.replicate (maxId + 1) 0) i hi huniq (by rw [List.length_replicate]; omega)
      simpa using this
    · intro hnone
      show groupingIds vertex props = List.range vertex.rowCount
      unfold groupingIds
      rw [hnone]

/-- C5 witness: the theorem evaluated on a table whose `gid` identifiers
repeat (`[7, 7, 2]`), showing the concrete last-write-wins map. -/
theorem C5_grouping_map_witness :
    getGrouping vtRep propsRep = Except.ok ⟨[7, 7, 2], [0, 0, 2, 0, 0, 0, 0, 1]⟩ ∧
      ((Grouping.mk [7, 7, 2] [0, 0, 2, 0, 0, 0, 0, 1]).map.length =
          (arrayMax (Grouping.mk [7, 7, 2] [0, 0, 2, 0, 0, 0, 0, 1]).ids).getD 0 + 1 ∧
        (∀ i, i < (Grouping.mk [7, 7, 2] [0, 0, 2, 0, 0, 0, 0, 1]).ids.length →
          (∀ j, i < j → j < (Grouping.mk [7, 7, 2] [0, 0, 2, 0, 0, 0, 0, 1]).ids.length →
            (Grouping.mk [7, 7, 2] [0, 0, 2, 0, 0, 0, 0, 1]).ids.getD j 0 ≠
              (Grouping.mk [7, 7, 2] [0, 0, 2, 0, 0, 0, 0, 1]).ids.getD i 0) →
          (Grouping.mk [7, 7, 2] [0, 0, 2, 0, 0, 0, 0, 1]).map[
            (Grouping.mk [7, 7, 2] [0, 0, 2, 0, 0, 0, 0, 1]).ids.getD i 0]? = some i) ∧
        (propsRep.grouping = GroupingProps.none →
          (Grouping.mk [7, 7, 2] [0, 0, 2, 0, 0, 0, 0, 1]).ids = List.range vtRep.rowCount)) :=
  ⟨rfl, C5_grouping_map vtRep propsRep ⟨[7, 7, 2], [0, 0, 2, 0, 0, 0, 0, 1]⟩ rfl⟩

/-- C8 (confirmed): `getColoring` never fails — in per-vertex mode each of
the three channels independently resolves to the named column when present
and otherwise falls back to a constant 127 column over the vertex row count
(whose value at every row is 127); in uniform mode the constant color is
decomposed into three constant columns of its red, green and blue components
over the vertex row count. -/
theorem C8_coloring_total (vertex : PlyTable) (props : PlyShapeProps) :
    (∀ red green blue, props.coloring = ColoringProps.vertex red green blue →
      (getColoring vertex props).red =
          (vertex.getProperty red).getD (Column.const 127 vertex.rowCount) ∧
        (getColoring vertex props).green =
          (vertex.getProperty green).getD (Column.const 127 vertex.rowCount) ∧
        (getColoring vertex props).blue =
          (vertex.getProperty blue).getD (Column.const 127 vertex.rowCount) ∧
        (vertex.getProperty red = Option.none →
          ∀ i, (getColoring vertex props).red.value i = 127)) ∧
    (∀ c, props.coloring = ColoringProps.uniform c →
      getColoring vertex props =
        ⟨Column.const c.r vertex.rowCount, Column.const c.g vertex.rowCount,
          Column.const c.b vertex.rowCount⟩) := by
  obtain ⟨pg, pc⟩ := props
  constructor
  · intro red green blue hpc
    cases hpc
    refine ⟨rfl, rfl, rfl, ?_⟩
    intro hnone i
    show ((vertex.getProperty red).getD (Column.const 127 vertex.rowCount)).value i = 127
    rw [hnone]
    rfl
  · intro c hpc
    cases hpc
    rfl

/-- C8 witness: per-vertex coloring on a table with all three channel
properties absent resolves each channel to the constant 127 column. -/
theorem C8_coloring_total_witness :
    props2.coloring = ColoringProps.vertex "red" "green" "blue" ∧
      ((getColoring vt2 props2).red =
          (vt2.getProperty "red").getD (Column.const 127 vt2.rowCount) ∧
        (getColoring vt2 props2).green =
          (vt2.getProperty "green").getD (Column.const 127 vt2.rowCount) ∧
        (getColoring vt2 props2).blue =
          (vt2.getProperty "blue").getD (Column.const 127 vt2.rowCount) ∧
        (vt2.getProperty "red" = Option.none →
          ∀ i, (getColoring vt2 props2).red.value i = 127)) :=
  ⟨rfl, (C8_coloring_total vt2 props2).1 "red" "green" "blue" rfl⟩

/-- C2 (code bug): with grouping by the `atomid` property of value 5 on a
1-row table, the group-id buffer of the mesh contains 5, yet
`getLabel(5)` reads `ids[5]` — out of bounds for the 1-element ids array —
so the label callback hits an undefined lookup instead of returning a
string; `getColor(5)` and `getSize(5)` are fine on the same input.  The
code indexes `ids` by the raw group id where the parallel color callback
indexes via `map`. -/
theorem C2_label_out_of_bounds :
    mesh2.groups = [5] ∧ ShapeData.getLabel shape2 5 = Option.none ∧
      ShapeData.getColor shape2 5 = some (Color.fromRgb 127 127 127) ∧
      ShapeData.getSize shape2 5 = 1 :=
  ⟨rfl, rfl, rfl, rfl⟩


/-- After a successful `getShape` call, the cache stores the dataset
identity, a copy of the props, and the returned shape. -/
theorem getShape_success (ctx : RuntimeContext) (plyFile : PlyFile) (props : PlyShapeProps)
    (st st1 : CacheState) (evs1 : List BuildEvent) (s1 : ShapeData)
    (h : getShape ctx plyFile props st = (st1, evs1, Except.ok (some s1))) :
    st1.plyFile = some plyFile.id ∧ st1.props = some props ∧ st1.shape = some s1 := by
  simp only [getShape] at h
  split at h
  · simp at h
  · split at h
    · simp at h
    · split at h
      · split at h
        · simp at h
        · split at h
          · simp at h
          · simp only [Prod.mk.injEq] at h
            obtain ⟨h1, -, h3⟩ := h
            injection h3 with h3
            rw [← h1]
            exact ⟨rfl, rfl, h3⟩
      · split at h
        · split at h
          · simp only [Prod.mk.injEq] at h
            obtain ⟨h1, -, h3⟩ := h
            injection h3 with h3
            rw [← h1]
            exact ⟨rfl, rfl, h3⟩
          · simp at h
        · simp only [Prod.mk.injEq] at h
          obtain ⟨h1, -, h3⟩ := h
          injection h3 with h3
          rw [← h1]
          exact ⟨rfl, rfl, h3⟩

/-- C1 (corrected): when a `getShape` call fails — missing vertex or face
element, missing coordinate property, or cancellation observed at a
checkpoint — the cached shape, mesh, dataset identity and params retain
exactly their pre-call values.  The cached coloring and grouping, however,
are not covered: they are assigned before the awaited mesh build and may
keep the failing call's freshly computed values (see the counterexample). -/
theorem C1_cache_on_failure (ctx : RuntimeContext) (plyFile : PlyFile) (props : PlyShapeProps)
    (st st1 : CacheState) (evs : List BuildEvent) (e : PlyError)
    (h : getShape ctx plyFile props st = (st1, evs, Except.error e)) :
    st1.shape = st.shape ∧ st1.mesh = st.mesh ∧ st1.plyFile = st.plyFile ∧
      st1.props = st.props := by
  simp only [getShape] at h
  split at h
  · simp only [Prod.mk.injEq] at h
    rw [← h.1]
    exact ⟨rfl, rfl, rfl, rfl⟩
  · split at h
    · simp only [Prod.mk.injEq] at h
      rw [← h.1]
      exact ⟨rfl, rfl, rfl, rfl⟩
    · split at h
      · split at h
        · simp only [Prod.mk.injEq] at h
          rw [← h.1]
          exact ⟨rfl, rfl, rfl, rfl⟩
        · split at h
          · simp only [Prod.mk.injEq] at h
            rw [← h.1]
            exact ⟨rfl, rfl, rfl, rfl⟩
          · simp at h
      · split at h
        · split at h
          · simp at h
          · simp only [Prod.mk.injEq] at h
            rw [← h.1]
            exact ⟨rfl, rfl, rfl, rfl⟩
        · simp at h

/-- C1 witness: the preserved part of the cache evaluated on a concrete
failing call (vertex table missing `x`) against the empty cache. -/
theorem C1_cache_on_failure_witness :
    (getShape ctx0 fileMissingX propsA CacheState.init).1.shape = CacheState.init.shape ∧
      (getShape ctx0 fileMissingX propsA CacheState.init).1.mesh = CacheState.init.mesh ∧
      (getShape ctx0 fileMissingX propsA CacheState.init).1.plyFile = CacheState.init.plyFile ∧
      (getShape ctx0 fileMissingX propsA CacheState.init).1.props = CacheState.init.props :=
  C1_cache_on_failure ctx0 fileMissingX propsA CacheState.init
    (getShape ctx0 fileMissingX propsA CacheState.init).1
    (getShape ctx0 fileMissingX propsA CacheState.init).2.1
    PlyError.missingCoordinateProperties rfl

/-- C1 counterexample: a failing `getShape` call (missing `x`) does not
leave the whole cache unchanged — the cached grouping has been overwritten
before the mesh build threw, since `_coloring` and `_grouping` are assigned
before the `await getMesh` that fails. -/
theorem C1_cache_on_failure_cex :
    (getShape ctx0 fileMissingX propsA CacheState.init).2.2 =
        Except.error PlyError.missingCoordinateProperties ∧
      (getShape ctx0 fileMissingX propsA CacheState.init).1.grouping ≠
        CacheState.init.grouping ∧
      (getShape ctx0 fileMissingX propsA CacheState.init).1.coloring ≠
        CacheState.init.coloring :=
  ⟨rfl, by decide, by decide⟩

/-- C3 (confirmed): calling `getShape` again with the same dataset identity
and structurally equal props right after a successful call takes the
Unchanged path: no recomputation event is emitted, the cache is left exactly
as it was, and the very shape of the previous call is returned. -/
theorem C3_unchanged_path (ctx ctx' : RuntimeContext) (plyFile : PlyFile)
    (props : PlyShapeProps) (st st1 : CacheState) (evs1 : List BuildEvent) (s1 : ShapeData)
    (h : getShape ctx plyFile props st = (st1, evs1, Except.ok (some s1))) :
    getShape ctx' plyFile props st1 = (st1, [], Except.ok (some s1)) := by
  obtain ⟨hp, hpr, hsh⟩ := getShape_success ctx plyFile props st st1 evs1 s1 h
  have hv : ∃ vertex, plyFile.vertex = some vertex := by
    cases hv : plyFile.vertex with
    | none =>
      simp only [getShape, hv] at h
      simp at h
    | some v => exact ⟨v, rfl⟩
  obtain ⟨vertex, hv⟩ := hv
  have hf : ∃ face, plyFile.face = some face := by
    cases hf : plyFile.face with
    | none =>
      simp only [getShape, hv, hf] at h
      simp at h
    | some f => exact ⟨f, rfl⟩
  obtain ⟨face, hf⟩ := hf
  have hnm : newMeshFlag st1 plyFile props = false := by
    simp [newMeshFlag, hp, hpr]
  have hnc : newColorFlag st1 props = false := by
    simp [newColorFlag, hpr]
  simp only [getShape, hv, hf, hnm, hnc, Bool.false_eq_true, if_false]
  obtain ⟨f1, f2, f3, f4, f5, f6⟩ := st1
  simp_all

/-- C3 witness: two identical requests on a concrete valid dataset; the
second returns the first call's shape with an empty event trace and an
unchanged cache. -/
theorem C3_unchanged_path_witness :
    getShape ctx0 file1 propsA CacheState.init =
        (stA, (getShape ctx0 file1 propsA CacheState.init).2.1, Except.ok (some sA)) ∧
      getShape ctx0 file1 propsA stA = (stA, [], Except.ok (some sA)) :=
  ⟨rfl,
    C3_unchanged_path ctx0 ctx0 file1 propsA CacheState.init stA
      (getShape ctx0 file1 propsA CacheState.init).2.1 sA rfl⟩

/-- C4 (confirmed): after a successful build from the empty cache, a second
request with the same dataset identity, equal grouping params and different
coloring params takes the color-only path: the event trace is exactly
recompute-coloring followed by create-shape (no grouping recomputation, no
mesh build), the returned shape's mesh and grouping are the very values of
the previous result, and the cached mesh and grouping are untouched. -/
theorem C4_color_only_rebuild (ctx ctx' : RuntimeContext) (plyFile : PlyFile)
    (props props' : PlyShapeProps) (st1 : CacheState) (evs1 : List BuildEvent) (s1 : ShapeData)
    (hgp : props'.grouping = props.grouping) (hcp : props'.coloring ≠ props.coloring)
    (h : getShape ctx plyFile props CacheState.init = (st1, evs1, Except.ok (some s1))) :
    (getShape ctx' plyFile props' st1).2.1 =
        [BuildEvent.computedColoring, BuildEvent.createdShape] ∧
      ∃ s2, (getShape ctx' plyFile props' st1).2.2 = Except.ok (some s2) ∧
        s2.geometry = s1.geometry ∧ s2.grouping = s1.grouping ∧
        (getShape ctx' plyFile props' st1).1.mesh = st1.mesh ∧
        (getShape ctx' plyFile props' st1).1.grouping = st1.grouping := by
  simp only [getShape] at h
  split at h
  · simp at h
  rename_i xv vertex hv
  split at h
  · simp at h
  rename_i xf face hf
  split at h
  · split at h
    · simp at h
    rename_i xg grouping hgr
    split at h
    · simp at h
    rename_i xm mesh hm
    simp only [Prod.mk.injEq] at h
    obtain ⟨hst, -, hres⟩ := h
    injection hres with hres
    injection hres with hres
    have hp : st1.plyFile = some plyFile.id := by rw [← hst]
    have hpr : st1.props = some props := by rw [← hst]
    have hm1 : st1.mesh = some mesh := by rw [← hst]
    have hg1 : st1.grouping = some grouping := by rw [← hst]
    have hnm2 : newMeshFlag st1 plyFile props' = false := by
      simp [newMeshFlag, hp, hpr, hgp]
    have hnc2 : newColorFlag st1 props' = true := by
      simp only [newColorFlag, hpr]
      simp only [decide_eq_true_eq]
      exact fun e2 => hcp e2.symm
    simp only [getShape, hv, hf, hnm2, hnc2, Bool.false_eq_true, if_false, if_true, hm1, hg1]
    refine ⟨?_, createShape plyFile mesh (getColoring vertex props') grouping, ?_, ?_, ?_, ?_,
      ?_⟩ <;>
      first
        | trivial
        | (rw [← hres]; rfl)
  · rename_i hnmf
    exact absurd rfl hnmf

/-- C4 witness: changing only the uniform color between two requests on a
concrete dataset triggers exactly the color-only rebuild. -/
theorem C4_color_only_rebuild_witness :
    propsB.grouping = propsA.grouping ∧ propsB.coloring ≠ propsA.coloring ∧
      ((getShape ctx0 file1 propsB stA).2.1 =
          [BuildEvent.computedColoring, BuildEvent.createdShape] ∧
        ∃ s2, (getShape ctx0 file1 propsB stA).2.2 = Except.ok (some s2) ∧
          s2.geometry = sA.geometry ∧ s2.grouping = sA.grouping ∧
          (getShape ctx0 file1 propsB stA).1.mesh = stA.mesh ∧
          (getShape ctx0 file1 propsB stA).1.grouping = stA.grouping) :=
  ⟨rfl, by decide,
    C4_color_only_rebuild ctx0 ctx0 file1 propsA propsB stA
      (getShape ctx0 file1 propsA CacheState.init).2.1 sA rfl (by decide) rfl⟩
